import Mathlib

/-!
Shallow embedding of the heuristic review engine in `utils/azure_ai.py`
(class `AzureAIWrapper`), together with proofs about the claims of the
specification.  Python strings are modelled as Lean `String`; Python's
substring test (`in`), `find`/`rfind`, slicing, `lower`/`upper`/`strip`,
whitespace `split` and single-character `replace` are given explicit
executable models below.  Counts and scores are modelled with exact
arithmetic: `(100 * p) / t` in `Nat` for `int((p/t)*100)`, and the
integer comparison `10 * matches > 3 * len` for the float comparison
`matches / len > 0.3`; on the reachable table sizes and realistic
keyword counts these coincide with Python's float results.
The wall clock read by `datetime.now()` is passed in as an explicit
`now : String` argument, and `json.loads` is passed in as an explicit
`jsonLoads` argument returning `none` on a parse failure.
-/

namespace EthicsPoC

/-- Does `needle` match at the head of `hay`?  Model of a fixed-offset
substring comparison used by the searching primitives below. -/
def headMatch : List Char → List Char → Bool
  | [], _ => true
  | _ :: _, [] => false
  | a :: as, b :: bs => a == b && headMatch as bs

/-- Scan of `hay` for `needle` at any offset. -/
def containsAux (needle : List Char) : List Char → Bool
  | [] => needle.isEmpty
  | c :: rest => headMatch needle (c :: rest) || containsAux needle rest

/-- Model of Python's `needle in hay` substring test. -/
def strContains (hay needle : String) : Bool :=
  containsAux needle.toList hay.toList

/-- Lowest offset at which `needle` occurs in `hay`, if any. -/
def findAux (needle : List Char) : List Char → Option Nat
  | [] => if needle.isEmpty then some 0 else none
  | c :: rest =>
    if headMatch needle (c :: rest) then some 0
    else (findAux needle rest).map (· + 1)

/-- Model of Python's `hay.find(needle)`: lowest index, `-1` if absent. -/
def strFind (hay needle : String) : Int :=
  match findAux needle.toList hay.toList with
  | some n => (n : Int)
  | none => -1

/-- Highest offset at which `needle` occurs in `hay`, if any. -/
def rfindAux (needle : List Char) : List Char → Option Nat
  | [] => if needle.isEmpty then some 0 else none
  | c :: rest =>
    match rfindAux needle rest with
    | some n => some (n + 1)
    | none => if headMatch needle (c :: rest) then some 0 else none

/-- Model of Python's `hay.rfind(needle)`: highest index, `-1` if absent. -/
def strRFind (hay needle : String) : Int :=
  match rfindAux needle.toList hay.toList with
  | some n => (n : Int)
  | none => -1

/-- Model of the Python slice `s[a:b]` for the non-negative indices
produced at the engine's call sites (empty when `b ≤ a`, clamped at the
end of the string). -/
def pySlice (s : String) (a b : Nat) : String :=
  String.mk ((s.toList.drop a).take (b - a))

/-- Model of Python's `s.lower()` (ASCII case folding). -/
def pyLower (s : String) : String :=
  String.mk (s.toList.map Char.toLower)

/-- Model of Python's `s.upper()` (ASCII case folding). -/
def pyUpper (s : String) : String :=
  String.mk (s.toList.map Char.toUpper)

/-- Model of Python's `s.strip()`: drop leading and trailing whitespace. -/
def pyStrip (s : String) : String :=
  String.mk (((s.toList.dropWhile Char.isWhitespace).reverse.dropWhile
    Char.isWhitespace).reverse)

/-- Accumulator pass behind `pySplitWS`. -/
def splitWSAux : List Char → List Char → List String
  | [], acc => if acc.isEmpty then [] else [String.mk acc.reverse]
  | c :: rest, acc =>
    if c.isWhitespace then
      if acc.isEmpty then splitWSAux rest []
      else String.mk acc.reverse :: splitWSAux rest []
    else splitWSAux rest (c :: acc)

/-- Model of Python's `s.split()` with no argument: split on runs of
whitespace, discarding empty pieces. -/
def pySplitWS (s : String) : List String :=
  splitWSAux s.toList []

/-- Model of Python's `s.replace(a, b)` for single-character `a`, `b`. -/
def pyReplaceChar (s : String) (a b : Char) : String :=
  String.mk (s.toList.map (fun c => if c = a then b else c))

/-- The structured verdict dictionary returned by the document-review
scorers (`status`, `analysis`, `missing_elements`, `recommendations`,
`compliance_score`).  Scores are counts of categories, hence `Nat`;
the `integer in [0, 100]` invariant therefore reduces to `≤ 100`. -/
structure ReviewVerdict where
  status : String
  analysis : String
  missing_elements : List String
  recommendations : List String
  compliance_score : Nat
deriving DecidableEq

/-- The dictionary returned by `_generate_review_report`. -/
structure ReviewReport where
  status : String
  report : String
  generated_at : String
deriving DecidableEq

/-- The fields the report composer reads out of one parsed review entry
via `review.get(key, default)`; `none` models an absent key. -/
structure ReviewFields where
  status : Option String
  analysis : Option String
  recommendations : Option (List String)
  missing_elements : Option (List String)
  compliance_score : Option Nat
deriving DecidableEq

/-- One role-tagged message of the engine's input list. -/
structure Message where
  role : String
  content : String
deriving DecidableEq

/-- The union of shapes `get_completion` can return: a plain string, a
review verdict dictionary, an `ERROR`-status dictionary with a message,
or a report dictionary. -/
inductive CompletionResult where
  | text (s : String)
  | verdict (v : ReviewVerdict)
  | errorMsg (message : String)
  | report (r : ReviewReport)
deriving DecidableEq

/-- Category/keyword table of `_analyze_consent_form`. -/
def consentKeyElements : List (String × List String) :=
  [("research_purpose", ["purpose", "aim", "objective", "goal"]),
   ("procedures", ["procedure", "what you will do", "what you\x27ll do", "activities", "tasks"]),
   ("risks", ["risk", "discomfort", "inconvenience", "harm"]),
   ("benefits", ["benefit", "advantage", "gain"]),
   ("confidentiality", ["confidential", "privacy", "private", "anonymity", "anonymous"]),
   ("voluntary", ["voluntary", "choice", "choose", "option", "decide"]),
   ("withdrawal", ["withdraw", "stop", "quit", "leave", "discontinue"]),
   ("contact", ["contact", "question", "concern", "information", "email", "phone"])]

/-- Category/keyword table of `_analyze_research_protocol`. -/
def protocolKeyElements : List (String × List String) :=
  [("background", ["background", "introduction", "literature", "review"]),
   ("objectives", ["objective", "aim", "goal", "purpose"]),
   ("methodology", ["method", "approach", "design", "procedure"]),
   ("participants", ["participant", "subject", "sample", "recruitment"]),
   ("data_collection", ["data collection", "gather", "collect", "measure"]),
   ("data_analysis", ["data analysis", "analyze", "statistical", "qualitative"]),
   ("ethical_considerations", ["ethic", "consent", "confidential", "privacy"]),
   ("timeline", ["timeline", "schedule", "duration", "period"])]

/-- Category/keyword table of `_analyze_ethics_application_form`. -/
def ethicsKeyElements : List (String × List String) :=
  [("researcher_info", ["researcher", "investigator", "applicant", "principal"]),
   ("project_details", ["project", "title", "summary", "overview"]),
   ("methodology", ["method", "approach", "design", "procedure"]),
   ("participants", ["participant", "subject", "sample", "recruitment"]),
   ("ethical_considerations", ["ethic", "consideration", "issue", "concern"]),
   ("risk_assessment", ["risk", "harm", "mitigation", "minimize"]),
   ("data_management", ["data", "storage", "security", "confidentiality"]),
   ("consent_procedures", ["consent", "inform", "voluntary", "withdraw"]),
   ("declarations", ["declare", "confirm", "certify", "statement"])]

/-- Category/keyword table of `_analyze_cv`. -/
def cvKeyElements : List (String × List String) :=
  [("education", ["education", "degree", "university", "college", "school"]),
   ("experience", ["experience", "work", "job", "position", "role"]),
   ("skills", ["skill", "competence", "ability", "proficiency"]),
   ("research", ["research", "study", "investigation", "project"]),
   ("publications", ["publication", "paper", "article", "journal"]),
   ("ethics_training", ["ethics", "IRB", "ethical", "compliance"])]

/-- Category/keyword table of `_analyze_survey`. -/
def surveyKeyElements : List (String × List String) :=
  [("introduction", ["introduction", "purpose", "about", "overview"]),
   ("instructions", ["instruction", "direction", "guide", "how to"]),
   ("questions", ["question", "ask", "respond", "answer"]),
   ("response_options", ["option", "choice", "select", "scale"]),
   ("sensitive_questions", ["sensitive", "personal", "private", "confidential"]),
   ("data_usage", ["data", "information", "use", "purpose"]),
   ("contact", ["contact", "question", "concern", "information"])]

/-- The scorers' shared loop splitting the category table into present
and missing category names (a keyword hit is a case-insensitive
substring match against the lowered document text). -/
def splitElements (doc : String) : List (String × List String) → List String × List String
  | [] => ([], [])
  | e :: rest =>
    let pm := splitElements doc rest
    if e.2.any (fun k => strContains doc k) then (e.1 :: pm.1, pm.2)
    else (pm.1, e.1 :: pm.2)

/-- The threshold chain each typed scorer applies to its compliance
score (repeated verbatim in each `_analyze_*` function). -/
def complianceStatus (score : Nat) : String :=
  if 90 ≤ score then "APPROVED"
  else if 70 ≤ score then "ANALYZING"
  else "NEEDS_REVISION"

/-- Human-readable category name: underscores become spaces. -/
def prettyName (e : String) : String := pyReplaceChar e '_' ' '

/-- Model of `_analyze_consent_form`.  `int((p / t) * 100)` is modelled
by the exact `(100 * p) / t` (floor division); the two agree on this
table size. -/
def analyzeConsentForm (docContent : String) : ReviewVerdict :=
  let dl := pyLower docContent
  let pm := splitElements dl consentKeyElements
  let present := pm.1
  let missing := pm.2
  let score := (100 * present.length) / consentKeyElements.length
  let a1 := "This consent form " ++
    (if 70 ≤ score then "adequately" else "inadequately") ++
    " addresses the ethical requirements for informed consent. "
  let a2 := if present ≠ [] then
      a1 ++ "The form includes information about " ++
        String.intercalate ", " (present.map prettyName) ++ ". "
    else a1
  let a3 := if missing ≠ [] then
      a2 ++ "However, it is missing information about " ++
        String.intercalate ", " (missing.map prettyName) ++ ". "
    else a2
  { status := complianceStatus score,
    analysis := a3 ++ "Overall, the document " ++
      (if 70 ≤ score then "meets" else "does not meet") ++
      " the basic requirements for an informed consent form.",
    missing_elements := missing.map prettyName,
    recommendations := missing.map (fun e => "Add information about " ++ prettyName e),
    compliance_score := score }

/-- Model of `_analyze_research_protocol`. -/
def analyzeResearchProtocol (docContent : String) : ReviewVerdict :=
  let dl := pyLower docContent
  let pm := splitElements dl protocolKeyElements
  let present := pm.1
  let missing := pm.2
  let score := (100 * present.length) / protocolKeyElements.length
  let a1 := "This research protocol " ++
    (if 70 ≤ score then "adequately" else "inadequately") ++
    " addresses the key components required. "
  let a2 := if present ≠ [] then
      a1 ++ "The protocol includes information about " ++
        String.intercalate ", " (present.map prettyName) ++ ". "
    else a1
  let a3 := if missing ≠ [] then
      a2 ++ "However, it is missing information about " ++
        String.intercalate ", " (missing.map prettyName) ++ ". "
    else a2
  { status := complianceStatus score,
    analysis := a3 ++ "Overall, the document " ++
      (if 70 ≤ score then "meets" else "does not meet") ++
      " the basic requirements for a research protocol.",
    missing_elements := missing.map prettyName,
    recommendations := missing.map (fun e => "Add a section on " ++ prettyName e),
    compliance_score := score }

/-- Model of `_analyze_ethics_application_form`. -/
def analyzeEthicsApplicationForm (docContent : String) : ReviewVerdict :=
  let dl := pyLower docContent
  let pm := splitElements dl ethicsKeyElements
  let present := pm.1
  let missing := pm.2
  let score := (100 * present.length) / ethicsKeyElements.length
  let a1 := "This ethics committee application form " ++
    (if 70 ≤ score then "adequately" else "inadequately") ++
    " addresses the required information. "
  let a2 := if present ≠ [] then
      a1 ++ "The form includes information about " ++
        String.intercalate ", " (present.map prettyName) ++ ". "
    else a1
  let a3 := if missing ≠ [] then
      a2 ++ "However, it is missing information about " ++
        String.intercalate ", " (missing.map prettyName) ++ ". "
    else a2
  { status := complianceStatus score,
    analysis := a3 ++ "Overall, the document " ++
      (if 70 ≤ score then "meets" else "does not meet") ++
      " the basic requirements for an ethics committee application form.",
    missing_elements := missing.map prettyName,
    recommendations := missing.map (fun e => "Complete the " ++ prettyName e ++ " section"),
    compliance_score := score }

/-- Model of `_analyze_cv`. -/
def analyzeCV (docContent : String) : ReviewVerdict :=
  let dl := pyLower docContent
  let pm := splitElements dl cvKeyElements
  let present := pm.1
  let missing := pm.2
  let score := (100 * present.length) / cvKeyElements.length
  let recs :=
    (if missing.contains "education" then
      ["Add educational qualifications relevant to the research"] else []) ++
    (if missing.contains "experience" then
      ["Include relevant research or professional experience"] else []) ++
    (if missing.contains "skills" then
      ["Add skills relevant to conducting this research"] else []) ++
    (if missing.contains "research" then
      ["Include previous research experience"] else []) ++
    (if missing.contains "publications" then
      ["Add relevant publications if applicable"] else []) ++
    (if missing.contains "ethics_training" then
      ["Include information about ethics training or certifications"] else [])
  let a1 := "This CV/Resume " ++
    (if 70 ≤ score then "adequately" else "inadequately") ++
    " demonstrates the researcher\x27s qualifications. "
  let a2 := if present ≠ [] then
      a1 ++ "The document includes information about " ++
        String.intercalate ", " (present.map prettyName) ++ ". "
    else a1
  let a3 := if missing ≠ [] then
      a2 ++ "However, it is missing information about " ++
        String.intercalate ", " (missing.map prettyName) ++ ". "
    else a2
  { status := complianceStatus score,
    analysis := a3 ++ "Overall, the document " ++
      (if 70 ≤ score then "demonstrates" else "does not adequately demonstrate") ++
      " the researcher\x27s qualifications for this study.",
    missing_elements := missing.map prettyName,
    recommendations := recs,
    compliance_score := score }

/-- Model of `_analyze_survey`. -/
def analyzeSurvey (docContent : String) : ReviewVerdict :=
  let dl := pyLower docContent
  let pm := splitElements dl surveyKeyElements
  let present := pm.1
  let missing := pm.2
  let score := (100 * present.length) / surveyKeyElements.length
  let recs :=
    (if missing.contains "introduction" then
      ["Add an introduction explaining the purpose of the survey"] else []) ++
    (if missing.contains "instructions" then
      ["Include clear instructions for completing the survey"] else []) ++
    (if missing.contains "questions" then
      ["Ensure questions are clearly formulated"] else []) ++
    (if missing.contains "response_options" then
      ["Provide clear response options for each question"] else []) ++
    (if missing.contains "sensitive_questions" then
      ["Consider whether any questions are sensitive and provide appropriate warnings"] else []) ++
    (if missing.contains "data_usage" then
      ["Include information about how the data will be used"] else []) ++
    (if missing.contains "contact" then
      ["Add contact information for questions or concerns"] else [])
  let a1 := "This survey/questionnaire " ++
    (if 70 ≤ score then "adequately" else "inadequately") ++
    " addresses the key components required. "
  let a2 := if present ≠ [] then
      a1 ++ "The document includes " ++
        String.intercalate ", " (present.map prettyName) ++ ". "
    else a1
  let a3 := if missing ≠ [] then
      a2 ++ "However, it is missing " ++
        String.intercalate ", " (missing.map prettyName) ++ ". "
    else a2
  { status := complianceStatus score,
    analysis := a3 ++ "Overall, the document " ++
      (if 70 ≤ score then "meets" else "does not meet") ++
      " the basic requirements for a research survey/questionnaire.",
    missing_elements := missing.map prettyName,
    recommendations := recs,
    compliance_score := score }

/-- Stop-word list of the generic scorer (`_analyze_generic_document`);
it extends the relevance gate's list with "research". -/
def genericStopwords : List String :=
  ["what", "when", "where", "which", "how", "does", "will", "your", "this",
   "that", "these", "those", "have", "from", "with", "about", "research"]

/-- Significant question words and the relevance score of the generic
scorer: `int((matches / len) * 100)` if any keywords, else the neutral
50.  Modelled with exact floor division. -/
def genericRelevanceScore (docContent question : String) : Nat :=
  let qks := (pySplitWS (pyLower question)).filter
    (fun w => decide (3 < w.length) && !(genericStopwords.contains w))
  let hits := qks.countP (fun k => strContains (pyLower docContent) k)
  if qks ≠ [] then (100 * hits) / qks.length else 50

/-- Model of `_analyze_generic_document`. -/
def analyzeGenericDocument (docContent question docType : String) : ReviewVerdict :=
  let score := genericRelevanceScore docContent question
  let recs :=
    (if score < 80 then
      ["Ensure the document directly addresses the question: \x27" ++ question ++ "\x27"]
     else []) ++
    (if docContent.length < 500 then
      ["Provide more detailed information in the document"] else []) ++
    (if !(strContains (pyLower docContent) "ethics") &&
        !(strContains (pyLower docContent) "ethical") then
      ["Include explicit discussion of ethical considerations"] else [])
  let a1 := "This " ++ docType ++ " " ++
    (if 60 ≤ score then "adequately" else "inadequately") ++
    " addresses the question: \x27" ++ question ++ "\x27. "
  let a2 := a1 ++
    (if 80 ≤ score then
      "The document provides comprehensive information relevant to the question. "
     else if 60 ≤ score then
      "The document provides some information relevant to the question, but could be more specific. "
     else
      "The document does not appear to directly address the question. ")
  { status :=
      if 80 ≤ score then "APPROVED"
      else if 60 ≤ score then "ANALYZING"
      else "NEEDS_REVISION",
    analysis := a2 ++ "Overall, the document " ++
      (if 60 ≤ score then "is" else "is not") ++
      " sufficient to address the ethical considerations raised in the question.",
    missing_elements :=
      if score < 60 then ["Specific addressing of the question"] else [],
    recommendations := recs,
    compliance_score := score }

/-- Model of `_determine_expected_document_type`: first-match-wins scan
of the lowered question text. -/
def expectedDocumentType (question : String) : String :=
  let ql := pyLower question
  if strContains ql "consent" || strContains ql "informed consent" then
    "Consent Form"
  else if strContains ql "protocol" || strContains ql "research protocol" then
    "Research Protocol"
  else if strContains ql "ethics committee application" ||
      strContains ql "ethics application" || strContains ql "application form" then
    "Ethics Committee Application Form"
  else if strContains ql "cv" || strContains ql "resume" ||
      strContains ql "curriculum vitae" then
    "CV/Resume"
  else if strContains ql "survey" || strContains ql "questionnaire" then
    "Survey/Questionnaire"
  else if strContains ql "study protocol" then
    "Study Protocol"
  else
    "Supporting Document"

/-- Model of `_determine_actual_document_type`: the filename rules fire
first, the content rules only when no filename rule matched. -/
def actualDocumentType (docName docContent : String) : String :=
  let nl := pyLower docName
  let cl := pyLower docContent
  if strContains nl "consent" then "Consent Form"
  else if strContains nl "protocol" then "Research Protocol"
  else if strContains nl "ethics" &&
      (strContains nl "application" || strContains nl "committee") then
    "Ethics Committee Application Form"
  else if strContains nl "cv" || strContains nl "resume" ||
      strContains nl "curriculum" then
    "CV/Resume"
  else if strContains nl "survey" || strContains nl "questionnaire" then
    "Survey/Questionnaire"
  else if strContains cl "consent" &&
      (strContains cl "voluntary" || strContains cl "withdraw") then
    "Consent Form"
  else if strContains cl "protocol" &&
      (strContains cl "methodology" || strContains cl "procedure") then
    "Research Protocol"
  else if strContains cl "ethics committee" && strContains cl "application" then
    "Ethics Committee Application Form"
  else if (strContains cl "education" || strContains cl "experience") &&
      (strContains cl "skills" || strContains cl "qualification") then
    "CV/Resume"
  else if strContains cl "question" &&
      (strContains cl "answer" || strContains cl "response") then
    "Survey/Questionnaire"
  else "Supporting Document"

/-- Stop-word list of the relevance gate (`_is_document_relevant`). -/
def relevanceStopwords : List String :=
  ["what", "when", "where", "which", "how", "does", "will", "your", "this",
   "that", "these", "those", "have", "from", "with", "about"]

/-- Model of `_is_document_relevant`.  The final float comparison
`(matches / len if keywords else 0) > 0.3` is modelled by the exactly
equivalent integer comparison `10 * matches > 3 * len` (both sides are
`0 > 0.3`, i.e. false, when no keywords exist). -/
def isDocumentRelevant (expectedType actualType docContent question : String) : Bool :=
  if expectedType = actualType then true
  else
    let qks := (pySplitWS (pyLower question)).filter
      (fun w => decide (3 < w.length) && !(relevanceStopwords.contains w))
    let hits := qks.countP (fun k => strContains (pyLower docContent) k)
    decide (10 * hits > 3 * qks.length)

/-- The fixed short-circuit verdict returned when the relevance gate
fails (score 20, `NEEDS_REVISION`). -/
def irrelevantVerdict (expectedType actualType : String) : ReviewVerdict :=
  { status := "NEEDS_REVISION",
    analysis := "The uploaded document does not appear to be the required " ++
      expectedType ++ " for this question. The document appears to be a " ++
      actualType ++ ", which does not address the requirements of this question.",
    missing_elements := ["Appropriate document type", "Content relevant to the question"],
    recommendations :=
      ["Upload a " ++ expectedType ++ " that specifically addresses this question",
       "Ensure the document contains all required elements"],
    compliance_score := 20 }

/-- The per-type dispatch of `_generate_document_review` after the
relevance gate has passed. -/
def dispatchReview (actualType docContent question : String) : ReviewVerdict :=
  if actualType = "Consent Form" then analyzeConsentForm docContent
  else if actualType = "Research Protocol" || actualType = "Study Protocol" then
    analyzeResearchProtocol docContent
  else if actualType = "Ethics Committee Application Form" then
    analyzeEthicsApplicationForm docContent
  else if actualType = "CV/Resume" then analyzeCV docContent
  else if actualType = "Survey/Questionnaire" then analyzeSurvey docContent
  else analyzeGenericDocument docContent question actualType

/-- Model of `_generate_document_review`. -/
def generateDocumentReview (docContent question docName : String) : ReviewVerdict :=
  let expectedType := expectedDocumentType question
  let actualType := actualDocumentType docName docContent
  if !(isDocumentRelevant expectedType actualType docContent question) then
    irrelevantVerdict expectedType actualType
  else
    dispatchReview actualType docContent question

/-- The fixed narrative returned by `_generate_research_context_analysis`
(independent of its input). -/
def researchContextAnalysis : String :=
  "\n    # Ethics Analysis\n\n    ## Ethical Considerations\n    Based on the research context provided, there are several ethical considerations to address:\n\n    1. **Participant Privacy**: Ensure all participant data is anonymized and securely stored.\n    2. **Informed Consent**: Clearly communicate the research purpose and how data will be used.\n    3. **Vulnerable Populations**: Take extra precautions if working with vulnerable groups.\n\n    ## Potential Risks\n    1. **Data Breach**: Unauthorized access to participant information\n    2. **Psychological Impact**: Potential distress from sensitive questions\n    3. **Confidentiality Concerns**: Maintaining anonymity in published results\n\n    ## Recommended Safeguards\n    1. Implement robust data security measures\n    2. Establish clear withdrawal procedures for participants\n    3. Create a detailed data management plan\n    4. Provide support resources for participants if needed\n\n    ## Compliance Requirements\n    1. Obtain IRB/Ethics Committee approval before beginning\n    2. Follow GDPR/local data protection regulations\n    3. Maintain documentation of consent procedures\n    4. Regular ethics reviews throughout the research process\n        "

/-- Fixed template: human-participants question answered YES. -/
def humanParticipantsYes : String :=
  "\n    ## Feedback on Human Participants Question\n\n    Your \x27YES\x27 response indicates that your research involves human participants, which triggers important ethical considerations.\n\n    ### Key Ethical Requirements:\n    1. You must obtain informed consent from all participants\n    2. You need to ensure participant privacy and data confidentiality\n    3. Risk assessment and mitigation strategies must be in place\n    4. Vulnerable populations require additional protections\n\n    ### Documentation Needed:\n    - Participant information sheets\n    - Consent forms\n    - Recruitment materials\n    - Data management plan\n\n    Please ensure you have addressed all these aspects in your supporting documentation.\n                "

/-- Fixed template: human-participants question not answered YES. -/
def humanParticipantsNo : String :=
  "\n    ## Feedback on Human Participants Question\n\n    Your response indicates your research does not involve human participants. If this is accurate, many standard ethical requirements for human subjects research won\x27t apply.\n\n    However, please double-check that your research truly doesn\x27t involve:\n    - Collection of human data (including from existing datasets)\n    - Observation of human behavior\n    - Use of human tissue samples\n    - Surveys, interviews, or focus groups\n\n    If any of these elements are present, you should reconsider your answer as your research may actually involve human participants indirectly.\n                "

/-- Fixed template: personal-data question answered YES. -/
def personalDataYes : String :=
  "\n    ## Feedback on Personal Data Collection\n\n    Your \x27YES\x27 response indicates you will be collecting personal data, which has significant ethical and legal implications.\n\n    ### Important Considerations:\n    1. You must comply with relevant data protection regulations (e.g., GDPR)\n    2. Data minimization principles should be applied\n    3. Secure storage and transfer protocols are required\n    4. Data retention periods must be defined and justified\n    5. Participant rights regarding their data must be clearly communicated\n\n    ### Documentation Required:\n    - Data management plan\n    - Privacy notice for participants\n    - Data security protocols\n    - Data retention and destruction schedule\n\n    Ensure your documentation thoroughly addresses how you\x27ll protect participant data throughout its lifecycle.\n                "

/-- Fixed template: personal-data question not answered YES. -/
def personalDataNo : String :=
  "\n    ## Feedback on Personal Data Collection\n\n    Your response indicates you won\x27t be collecting personal data. This simplifies some ethical requirements, but please verify that you truly won\x27t collect any information that could identify individuals.\n\n    Remember that personal data includes:\n    - Names, addresses, email addresses\n    - ID numbers or online identifiers\n    - Location data\n    - Physical, physiological, genetic, or biometric data\n    - Factors specific to a person\x27s identity\n\n    Even if you\x27re collecting anonymized data, the process of collection might temporarily involve personal information, so consider whether any stage of your research involves personal data.\n                "

/-- The generic feedback narrative echoing the question and response. -/
def genericFeedback (question response : String) : String :=
  "\n## Feedback on Your Response\n\nRegarding the question: \"" ++ question ++
  "\"\n\nYour answer of \"" ++ response ++
  "\" has important ethical implications that should be carefully considered.\n\n### Assessment:\nThe response you\x27ve provided requires you to think about how this aspect of your research aligns with ethical principles including respect for persons, beneficence, and justice.\n\n### Considerations:\n- How does this element of your research impact participant autonomy?\n- What measures are in place to ensure fair treatment of all stakeholders?\n- Have you considered both direct and indirect consequences of this aspect?\n\n### Recommendations:\n1. Document your reasoning for this decision in your research protocol\n2. Consider alternative approaches that might further minimize ethical concerns\n3. Consult relevant guidelines specific to this aspect of research ethics\n4. Be prepared to justify this position to the ethics committee\n\nRemember that ethical research requires ongoing reflection and adjustment throughout the research process.\n            "

/-- Model of `_generate_question_feedback` (returns text on all
branches except the vulnerable-populations-with-document special case,
which returns a fixed verdict dictionary). -/
def generateQuestionFeedback (question response : String) : CompletionResult :=
  let responseUpper := pyStrip (pyUpper response)
  if strContains (pyLower question) "human participants" then
    if responseUpper = "YES" then .text humanParticipantsYes
    else .text humanParticipantsNo
  else if strContains (pyLower question) "personal data" then
    if responseUpper = "YES" then .text personalDataYes
    else .text personalDataNo
  else if strContains (pyLower question) "vulnerable" &&
      strContains (pyLower question) "document" then
    .verdict
      { status := "ANALYZING",
        analysis := "This research protocol outlines the methodology, participant recruitment, data collection procedures, and ethical considerations for the study.",
        missing_elements := ["Detailed risk mitigation strategies"],
        recommendations := ["Add more specific information about how risks will be mitigated", "Include a data management plan"],
        compliance_score := 80 }
  else
    .text (genericFeedback question response)

/-- One per-document subsection of the review report; entries whose
value is not a dictionary (`none`) contribute nothing. -/
def reportSection (entry : String × Option ReviewFields) : String :=
  match entry.2 with
  | none => ""
  | some r =>
    let st := r.status.getD "PENDING"
    let analysis := r.analysis.getD "No analysis available"
    let recs := r.recommendations.getD []
    let missing := r.missing_elements.getD []
    "\n### Document ID: " ++ entry.1 ++ "\n" ++
    "**Status**: " ++ st ++ "\n" ++
    (match r.compliance_score with
     | some cs => "**Compliance Score**: " ++ toString cs ++ "/100\n"
     | none => "") ++
    "\n**Analysis**: " ++ analysis ++ "\n" ++
    (if missing ≠ [] then
      "\n**Missing Elements**:\n" ++
        String.join (missing.map (fun el => "- " ++ el ++ "\n"))
     else "") ++
    (if recs ≠ [] then
      "\n**Recommendations**:\n" ++
        String.join (recs.map (fun r2 => "- " ++ r2 ++ "\n"))
     else "") ++
    "\n---\n"

/-- The full report text composed by `_generate_review_report`
(executive-summary preamble, per-document subsections or the empty-map
placeholder, fixed next-steps closing section). -/
def buildReport (reviews : List (String × Option ReviewFields)) : String :=
  "\n# Ethics Review Report\n\n## Executive Summary\nThis report summarizes the ethical review of submitted documents for your research project. Overall, the documentation meets most ethical requirements with some recommendations for improvement.\n\n## Document Analysis\n" ++
  (if reviews ≠ [] then String.join (reviews.map reportSection)
   else "\nNo document reviews are available. Please ensure all required documents have been uploaded and reviewed.\n") ++
  "\n## Next Steps\n1. Address any identified issues in the documents\n2. Submit revised documentation where required\n3. Proceed with participant recruitment once all documents are approved\n\nFor any questions or clarification, please contact the Ethics Committee.\n"

/-- Model of `_generate_review_report`: always status `COMPLETED`, with
the generation timestamp `now` standing for `datetime.now()`. -/
def generateReviewReport (reviews : List (String × Option ReviewFields))
    (now : String) : ReviewReport :=
  { status := "COMPLETED", report := buildReport reviews, generated_at := now }

/-- The document-review branch of `get_completion`: extract the
document content, the ethics question and the document name from the
user message and review them. -/
def reviewFromMessage (u : String) : ReviewVerdict :=
  let docMarker := "Document Content Preview:"
  let docStart : Int := strFind u docMarker + (docMarker.length : Int)
  let docEnd : Int :=
    if strContains u "Please analyze" then strFind u "Please analyze"
    else (u.length : Int)
  let docContent := pyStrip (pySlice u docStart.toNat docEnd.toNat)
  let qMarker := "Ethics Question:"
  let qStart : Int := strFind u qMarker + (qMarker.length : Int)
  let qEnd : Int := strFind u "Document Name:"
  let question :=
    if qEnd > qStart then pyStrip (pySlice u qStart.toNat qEnd.toNat) else ""
  let nMarker := "Document Name:"
  let nStart : Int := strFind u nMarker + (nMarker.length : Int)
  let nEnd : Int := strFind u "Document Type:"
  let docName :=
    if nEnd > nStart then pyStrip (pySlice u nStart.toNat nEnd.toNat) else ""
  generateDocumentReview docContent question docName

/-- The question-feedback branch of `get_completion`: extract the
question and response texts and generate feedback. -/
def feedbackFromMessage (u : String) : CompletionResult :=
  let qMarker := "Question:"
  let qStart : Int := strFind u qMarker + (qMarker.length : Int)
  let qEnd : Int := strFind u "Response:"
  let question := pyStrip (pySlice u qStart.toNat qEnd.toNat)
  let rMarker := "Response:"
  let rStart : Int := strFind u rMarker + (rMarker.length : Int)
  let rEnd : Int :=
    if strContains u "Document Name:" then strFind u "Document Name:"
    else (u.length : Int)
  let response := pyStrip (pySlice u rStart.toNat rEnd.toNat)
  generateQuestionFeedback question response

/-- The review map of the report branch of `get_completion`: extract
the brace-delimited JSON span (if any) and parse it with `jsonLoads`
(the `json.loads` collaborator, `none` on failure, in which case the
reviews stay empty). -/
def extractReviews (u : String)
    (jsonLoads : String → Option (List (String × Option ReviewFields))) :
    List (String × Option ReviewFields) :=
  let startIdx : Int := strFind u "\x7b"
  let endIdx : Int := strRFind u "\x7d" + 1
  if 0 ≤ startIdx ∧ startIdx < endIdx then
    (jsonLoads (pySlice u startIdx.toNat endIdx.toNat)).getD []
  else []

/-- The report branch of `get_completion`. -/
def reportFromMessage (u : String) (now : String)
    (jsonLoads : String → Option (List (String × Option ReviewFields))) :
    ReviewReport :=
  generateReviewReport (extractReviews u jsonLoads) now

/-- One step of `get_completion`'s scan of the message list. -/
def updateLast (acc : Option String × Option String) (m : Message) :
    Option String × Option String :=
  if m.role = "user" then (some m.content, acc.2)
  else if m.role = "system" then (acc.1, some m.content)
  else acc

/-- Forward scan of the message list keeping the last user-role content
and the last system-role content, as `get_completion` does. -/
def lastUserSystem (messages : List Message) : Option String × Option String :=
  messages.foldl updateLast (none, none)

/-- The fixed fallback message of the classifier's default branch. -/
def defaultResponse : String :=
  "I\x27m here to assist with your research ethics application. Please provide specific details about your research or questions about ethical requirements."

/-- Model of `get_completion`.  The retry loop is skipped: its body
always returns on the first pass (the model raises no exceptions and
`max_retries = 3 > 0`).  The condition of the report branch mirrors the
Python conditional-expression precedence exactly: when a (truthy)
system message is present, only the system text is tested for
"review report"; the user text is tested for "generate a review
report" only when the system message is absent or empty. -/
def getCompletion (messages : List Message) (now : String)
    (jsonLoads : String → Option (List (String × Option ReviewFields))) :
    CompletionResult :=
  let lu := (lastUserSystem messages).1
  let sys := (lastUserSystem messages).2
  match lu with
  | none => .errorMsg "No user message found in the conversation."
  | some u =>
    if u = "" then .errorMsg "No user message found in the conversation."
    else if strContains u "Document Content Preview:" then
      .verdict (reviewFromMessage u)
    else if strContains (pyLower u) "research context" then
      .text researchContextAnalysis
    else if strContains u "Question:" && strContains u "Response:" then
      feedbackFromMessage u
    else if
      (match sys with
       | some s =>
         if s ≠ "" then strContains (pyLower s) "review report"
         else strContains (pyLower u) "generate a review report"
       | none => strContains (pyLower u) "generate a review report") then
      .report (reportFromMessage u now jsonLoads)
    else
      .text defaultResponse

/-- The invariant of the typed scorers asserted by the specification:
score within bounds (`≥ 0` holds because scores are `Nat`), and the
90/70 status thresholds, each direction. -/
def scorerOk (v : ReviewVerdict) : Prop :=
  v.compliance_score ≤ 100 ∧
  (v.status = "APPROVED" ↔ 90 ≤ v.compliance_score) ∧
  (v.status = "ANALYZING" ↔ 70 ≤ v.compliance_score ∧ v.compliance_score < 90) ∧
  (v.status = "NEEDS_REVISION" ↔ v.compliance_score < 70)

/-- The invariant of the generic scorer: score within bounds and the
80/60 status thresholds, each direction. -/
def genericScorerOk (v : ReviewVerdict) : Prop :=
  v.compliance_score ≤ 100 ∧
  (v.status = "APPROVED" ↔ 80 ≤ v.compliance_score) ∧
  (v.status = "ANALYZING" ↔ 60 ≤ v.compliance_score ∧ v.compliance_score < 80) ∧
  (v.status = "NEEDS_REVISION" ↔ v.compliance_score < 60)

/-- Specification-side count of the categories present in a document:
the number of table entries with at least one keyword occurring in the
lowered document text. -/
def presentCount (table : List (String × List String)) (docLower : String) : Nat :=
  (table.filter (fun e => e.2.any (fun k => strContains docLower k))).length

/-- A head match with a concatenated needle yields an occurrence of the
needle's second part. -/
theorem containsAux_of_headMatch (pre suf : List Char) :
    ∀ hay, headMatch (pre ++ suf) hay = true → containsAux suf hay = true := by
  induction pre with
  | nil =>
    intro hay h
    rw [List.nil_append] at h
    cases hay with
    | nil =>
      cases suf with
      | nil => rfl
      | cons a as => exact absurd h (by simp [headMatch])
    | cons b bs => rw [containsAux, h, Bool.true_or]
  | cons a as ih =>
    intro hay h
    cases hay with
    | nil => exact absurd h (by simp [headMatch])
    | cons b bs =>
      rw [List.cons_append, headMatch, Bool.and_eq_true] at h
      have hb := ih bs h.2
      rw [containsAux, hb, Bool.or_true]

/-- If a concatenation occurs as a substring, so does its second part. -/
theorem containsAux_append_right (pre suf : List Char) :
    ∀ hay, containsAux (pre ++ suf) hay = true → containsAux suf hay = true := by
  intro hay
  induction hay with
  | nil =>
    intro h
    rw [containsAux, List.isEmpty_iff] at h
    rcases List.append_eq_nil.mp h with ⟨h1, h2⟩
    rw [h2]
    rfl
  | cons c rest ih =>
    intro h
    rw [containsAux, Bool.or_eq_true] at h
    rcases h with h | h
    · exact containsAux_of_headMatch pre suf _ h
    · rw [containsAux, ih h, Bool.or_true]

/-- A question mentioning "study protocol" also mentions "protocol". -/
theorem strContains_protocol_of_study (q : String)
    (h : strContains q "study protocol" = true) :
    strContains q "protocol" = true := by
  have e : ("study protocol" : String).toList =
      ("study " : String).toList ++ ("protocol" : String).toList := rfl
  unfold strContains at h ⊢
  rw [e] at h
  exact containsAux_append_right _ _ _ h

/-- The present and missing categories partition the table. -/
theorem splitElements_length (d : String) (t : List (String × List String)) :
    (splitElements d t).1.length + (splitElements d t).2.length = t.length := by
  induction t with
  | nil => rfl
  | cons e rest ih =>
    simp only [splitElements]
    split <;> simp only [List.length_cons] <;> omega

/-- At most as many categories are present as the table holds. -/
theorem splitElements_fst_le (d : String) (t : List (String × List String)) :
    (splitElements d t).1.length ≤ t.length := by
  have h := splitElements_length d t
  omega

/-- The number of present categories is the count of table entries with
a keyword hit. -/
theorem splitElements_fst_countP (d : String) (t : List (String × List String)) :
    (splitElements d t).1.length =
      t.countP (fun e => e.2.any (fun k => strContains d k)) := by
  induction t with
  | nil => rfl
  | cons e rest ih =>
    simp only [splitElements, List.countP_cons]
    split
    all_goals simp only [List.length_cons, ih]
    all_goals omega

/-- Every missing category name comes from the table. -/
theorem splitElements_snd_mem (d : String) (t : List (String × List String))
    (x : String) (hx : x ∈ (splitElements d t).2) : x ∈ t.map Prod.fst := by
  induction t with
  | nil => exact absurd hx (by simp [splitElements])
  | cons e rest ih =>
    simp only [splitElements] at hx
    simp only [List.map_cons]
    split at hx
    · exact List.mem_cons_of_mem _ (ih hx)
    · rcases List.mem_cons.mp hx with h | h
      · exact h ▸ List.mem_cons_self _ _
      · exact List.mem_cons_of_mem _ (ih h)

/-- Characterization of the 90/70 threshold chain. -/
theorem complianceStatus_spec (s : Nat) :
    (complianceStatus s = "APPROVED" ↔ 90 ≤ s) ∧
    (complianceStatus s = "ANALYZING" ↔ 70 ≤ s ∧ s < 90) ∧
    (complianceStatus s = "NEEDS_REVISION" ↔ s < 70) := by
  unfold complianceStatus
  by_cases h1 : 90 ≤ s
  · rw [if_pos h1]
    exact ⟨⟨fun _ => h1, fun _ => rfl⟩,
      ⟨fun h => absurd h (by decide), fun h => absurd h1 (by omega)⟩,
      ⟨fun h => absurd h (by decide), fun h => absurd h1 (by omega)⟩⟩
  · rw [if_neg h1]
    by_cases h2 : 70 ≤ s
    · rw [if_pos h2]
      exact ⟨⟨fun h => absurd h (by decide), fun h => absurd h h1⟩,
        ⟨fun _ => ⟨h2, by omega⟩, fun _ => rfl⟩,
        ⟨fun h => absurd h (by decide), fun h => absurd h2 (by omega)⟩⟩
    · rw [if_neg h2]
      exact ⟨⟨fun h => absurd h (by decide), fun h => absurd h h1⟩,
        ⟨fun h => absurd h (by decide), fun h => absurd h.1 h2⟩,
        ⟨fun _ => by omega, fun _ => rfl⟩⟩

/-- The floor score of a sub-table count never exceeds 100. -/
theorem floorScore_le_100 (p t : Nat) (hp : p ≤ t) (ht : 0 < t) :
    (100 * p) / t ≤ 100 := by
  have h1 : 100 * p ≤ 100 * t := Nat.mul_le_mul_left 100 hp
  have h2 : (100 * p) / t ≤ (100 * t) / t := Nat.div_le_div_right h1
  have h3 : (100 * t) / t = 100 := by
    rw [Nat.mul_comm]
    exact Nat.mul_div_cancel_left 100 ht
  omega

/-- A verdict whose score is a floor score and whose status comes from
the 90/70 chain satisfies the typed-scorer invariant. -/
theorem scorerOk_of (v : ReviewVerdict) (p t : Nat)
    (hsc : v.compliance_score = (100 * p) / t)
    (hst : v.status = complianceStatus v.compliance_score)
    (hp : p ≤ t) (ht : 0 < t) : scorerOk v := by
  obtain ⟨h1, h2, h3⟩ := complianceStatus_spec v.compliance_score
  refine ⟨?_, ?_, ?_, ?_⟩
  · rw [hsc]; exact floorScore_le_100 p t hp ht
  · rw [hst]; exact h1
  · rw [hst]; exact h2
  · rw [hst]; exact h3

/-- The consent scorer's score field, spelled out. -/
theorem analyzeConsentForm_score (d : String) :
    (analyzeConsentForm d).compliance_score =
      (100 * (splitElements (pyLower d) consentKeyElements).1.length) /
        consentKeyElements.length := rfl

/-- The consent scorer's status field comes from the threshold chain. -/
theorem analyzeConsentForm_status (d : String) :
    (analyzeConsentForm d).status =
      complianceStatus (analyzeConsentForm d).compliance_score := rfl

/-- The protocol scorer's score field, spelled out. -/
theorem analyzeResearchProtocol_score (d : String) :
    (analyzeResearchProtocol d).compliance_score =
      (100 * (splitElements (pyLower d) protocolKeyElements).1.length) /
        protocolKeyElements.length := rfl

/-- The protocol scorer's status field comes from the threshold chain. -/
theorem analyzeResearchProtocol_status (d : String) :
    (analyzeResearchProtocol d).status =
      complianceStatus (analyzeResearchProtocol d).compliance_score := rfl

/-- The ethics-application scorer's score field, spelled out. -/
theorem analyzeEthicsApplicationForm_score (d : String) :
    (analyzeEthicsApplicationForm d).compliance_score =
      (100 * (splitElements (pyLower d) ethicsKeyElements).1.length) /
        ethicsKeyElements.length := rfl

/-- The ethics-application scorer's status field comes from the chain. -/
theorem analyzeEthicsApplicationForm_status (d : String) :
    (analyzeEthicsApplicationForm d).status =
      complianceStatus (analyzeEthicsApplicationForm d).compliance_score := rfl

/-- The CV scorer's score field, spelled out. -/
theorem analyzeCV_score (d : String) :
    (analyzeCV d).compliance_score =
      (100 * (splitElements (pyLower d) cvKeyElements).1.length) /
        cvKeyElements.length := rfl

/-- The CV scorer's status field comes from the threshold chain. -/
theorem analyzeCV_status (d : String) :
    (analyzeCV d).status =
      complianceStatus (analyzeCV d).compliance_score := rfl

/-- The survey scorer's score field, spelled out. -/
theorem analyzeSurvey_score (d : String) :
    (analyzeSurvey d).compliance_score =
      (100 * (splitElements (pyLower d) surveyKeyElements).1.length) /
        surveyKeyElements.length := rfl

/-- The survey scorer's status field comes from the threshold chain. -/
theorem analyzeSurvey_status (d : String) :
    (analyzeSurvey d).status =
      complianceStatus (analyzeSurvey d).compliance_score := rfl

/-- The generic relevance score never exceeds 100. -/
theorem genericRelevanceScore_le_100 (d q : String) :
    genericRelevanceScore d q ≤ 100 := by
  unfold genericRelevanceScore
  dsimp only
  split
  · next h =>
    exact floorScore_le_100 _ _ (List.countP_le_length _)
      (List.length_pos.mpr h)
  · omega

/-- The generic scorer's score field, spelled out. -/
theorem analyzeGenericDocument_score (d q dt : String) :
    (analyzeGenericDocument d q dt).compliance_score =
      genericRelevanceScore d q := rfl

/-- The generic scorer's status field comes from the 80/60 chain. -/
theorem analyzeGenericDocument_status (d q dt : String) :
    (analyzeGenericDocument d q dt).status =
      (if 80 ≤ genericRelevanceScore d q then "APPROVED"
       else if 60 ≤ genericRelevanceScore d q then "ANALYZING"
       else "NEEDS_REVISION") := rfl

/-- Characterization of the 80/60 threshold chain of the generic
scorer. -/
theorem genericStatus_spec (s : Nat) :
    ((if 80 ≤ s then "APPROVED"
      else if 60 ≤ s then "ANALYZING"
      else "NEEDS_REVISION") = "APPROVED" ↔ 80 ≤ s) ∧
    ((if 80 ≤ s then "APPROVED"
      else if 60 ≤ s then "ANALYZING"
      else "NEEDS_REVISION") = "ANALYZING" ↔ 60 ≤ s ∧ s < 80) ∧
    ((if 80 ≤ s then "APPROVED"
      else if 60 ≤ s then "ANALYZING"
      else "NEEDS_REVISION") = "NEEDS_REVISION" ↔ s < 60) := by
  by_cases h1 : 80 ≤ s
  · rw [if_pos h1]
    exact ⟨⟨fun _ => h1, fun _ => rfl⟩,
      ⟨fun h => absurd h (by decide), fun h => absurd h1 (by omega)⟩,
      ⟨fun h => absurd h (by decide), fun h => absurd h1 (by omega)⟩⟩
  · rw [if_neg h1]
    by_cases h2 : 60 ≤ s
    · rw [if_pos h2]
      exact ⟨⟨fun h => absurd h (by decide), fun h => absurd h h1⟩,
        ⟨fun _ => ⟨h2, by omega⟩, fun _ => rfl⟩,
        ⟨fun h => absurd h (by decide), fun h => absurd h2 (by omega)⟩⟩
    · rw [if_neg h2]
      exact ⟨⟨fun h => absurd h (by decide), fun h => absurd h h1⟩,
        ⟨fun h => absurd h (by decide), fun h => absurd h.1 h2⟩,
        ⟨fun _ => by omega, fun _ => rfl⟩⟩

/-- The generic scorer satisfies the 80/60 invariant. -/
theorem genericScorerOk_holds (d q dt : String) :
    genericScorerOk (analyzeGenericDocument d q dt) := by
  obtain ⟨h1, h2, h3⟩ := genericStatus_spec (genericRelevanceScore d q)
  refine ⟨?_, ?_, ?_, ?_⟩
  · rw [analyzeGenericDocument_score]; exact genericRelevanceScore_le_100 d q
  · rw [analyzeGenericDocument_status, analyzeGenericDocument_score]; exact h1
  · rw [analyzeGenericDocument_status, analyzeGenericDocument_score]; exact h2
  · rw [analyzeGenericDocument_status, analyzeGenericDocument_score]; exact h3

/-- Claim C1: every typed scorer returns a compliance score in
[0, 100] (scores are `Nat`, hence non-negative) with status APPROVED
iff score ≥ 90, ANALYZING iff 70 ≤ score < 90, NEEDS_REVISION iff
score < 70; the generic scorer instead uses the 80/60 thresholds. -/
theorem c1_score_bounds_and_status_thresholds (docContent question docType : String) :
    scorerOk (analyzeConsentForm docContent) ∧
    scorerOk (analyzeResearchProtocol docContent) ∧
    scorerOk (analyzeEthicsApplicationForm docContent) ∧
    scorerOk (analyzeCV docContent) ∧
    scorerOk (analyzeSurvey docContent) ∧
    genericScorerOk (analyzeGenericDocument docContent question docType) := by
  refine ⟨?_, ?_, ?_, ?_, ?_, genericScorerOk_holds docContent question docType⟩
  · exact scorerOk_of _ _ _ (analyzeConsentForm_score docContent)
      (analyzeConsentForm_status docContent)
      (splitElements_fst_le _ _) (by decide)
  · exact scorerOk_of _ _ _ (analyzeResearchProtocol_score docContent)
      (analyzeResearchProtocol_status docContent)
      (splitElements_fst_le _ _) (by decide)
  · exact scorerOk_of _ _ _ (analyzeEthicsApplicationForm_score docContent)
      (analyzeEthicsApplicationForm_status docContent)
      (splitElements_fst_le _ _) (by decide)
  · exact scorerOk_of _ _ _ (analyzeCV_score docContent)
      (analyzeCV_status docContent)
      (splitElements_fst_le _ _) (by decide)
  · exact scorerOk_of _ _ _ (analyzeSurvey_score docContent)
      (analyzeSurvey_status docContent)
      (splitElements_fst_le _ _) (by decide)

/-- Present-category count as computed by the scorers agrees with the
specification-side filter count. -/
theorem splitElements_fst_presentCount (d : String)
    (t : List (String × List String)) :
    (splitElements d t).1.length = presentCount t d := by
  rw [splitElements_fst_countP, presentCount, List.countP_eq_length_filter]

/-- Claim C5, counterexample: an ethics application form with exactly
8 of the 9 categories present (only "declarations" missing) scores 88,
the floor of 800/9, not round(800/9) = 89 as the claim states. -/
theorem c5_truncation_counterexample :
    (analyzeEthicsApplicationForm
      "researcher project method participant ethic risk data consent").missing_elements =
      ["declarations"] ∧
    (analyzeEthicsApplicationForm
      "researcher project method participant ethic risk data consent").compliance_score = 88 := by
  constructor
  · rfl
  · rfl

/-- Claim C5 as amended: every typed scorer's compliance score is the
floor (truncating integer division, as Python's `int()` on a
non-negative float) of 100 × present categories / total categories,
not the nearest-integer rounding. -/
theorem c5_floor_scoring (docContent : String) :
    (analyzeConsentForm docContent).compliance_score =
      (100 * presentCount consentKeyElements (pyLower docContent)) /
        consentKeyElements.length ∧
    (analyzeResearchProtocol docContent).compliance_score =
      (100 * presentCount protocolKeyElements (pyLower docContent)) /
        protocolKeyElements.length ∧
    (analyzeEthicsApplicationForm docContent).compliance_score =
      (100 * presentCount ethicsKeyElements (pyLower docContent)) /
        ethicsKeyElements.length ∧
    (analyzeCV docContent).compliance_score =
      (100 * presentCount cvKeyElements (pyLower docContent)) /
        cvKeyElements.length ∧
    (analyzeSurvey docContent).compliance_score =
      (100 * presentCount surveyKeyElements (pyLower docContent)) /
        surveyKeyElements.length := by
  refine ⟨?_, ?_, ?_, ?_, ?_⟩
  · rw [analyzeConsentForm_score, splitElements_fst_presentCount]
  · rw [analyzeResearchProtocol_score, splitElements_fst_presentCount]
  · rw [analyzeEthicsApplicationForm_score, splitElements_fst_presentCount]
  · rw [analyzeCV_score, splitElements_fst_presentCount]
  · rw [analyzeSurvey_score, splitElements_fst_presentCount]

/-- The relevance gate passes whenever the two types coincide. -/
theorem isDocumentRelevant_of_eq (ty c q : String) :
    isDocumentRelevant ty ty c q = true := by
  unfold isDocumentRelevant
  rw [if_pos rfl]

/-- The short-circuit pair never equals a mapped missing-element list
whose members all map away from "Appropriate document type". -/
theorem mapped_missing_ne_pair (d : String) (t : List (String × List String))
    (hnot : ∀ x ∈ t.map Prod.fst, prettyName x ≠ "Appropriate document type") :
    (splitElements d t).2.map prettyName ≠
      ["Appropriate document type", "Content relevant to the question"] := by
  intro hEq
  cases hm : (splitElements d t).2 with
  | nil => rw [hm] at hEq; exact absurd hEq (by simp)
  | cons x xs =>
    rw [hm, List.map_cons] at hEq
    have hx : prettyName x = "Appropriate document type" :=
      (List.cons.injEq _ _ _ _ ▸ hEq).1
    have hmem : x ∈ (splitElements d t).2 := hm ▸ List.mem_cons_self x xs
    exact hnot x (splitElements_snd_mem d t x hmem) hx

/-- The consent scorer's missing list, spelled out. -/
theorem analyzeConsentForm_missing (d : String) :
    (analyzeConsentForm d).missing_elements =
      (splitElements (pyLower d) consentKeyElements).2.map prettyName := rfl

/-- The protocol scorer's missing list, spelled out. -/
theorem analyzeResearchProtocol_missing (d : String) :
    (analyzeResearchProtocol d).missing_elements =
      (splitElements (pyLower d) protocolKeyElements).2.map prettyName := rfl

/-- The ethics-application scorer's missing list, spelled out. -/
theorem analyzeEthicsApplicationForm_missing (d : String) :
    (analyzeEthicsApplicationForm d).missing_elements =
      (splitElements (pyLower d) ethicsKeyElements).2.map prettyName := rfl

/-- The CV scorer's missing list, spelled out. -/
theorem analyzeCV_missing (d : String) :
    (analyzeCV d).missing_elements =
      (splitElements (pyLower d) cvKeyElements).2.map prettyName := rfl

/-- The survey scorer's missing list, spelled out. -/
theorem analyzeSurvey_missing (d : String) :
    (analyzeSurvey d).missing_elements =
      (splitElements (pyLower d) surveyKeyElements).2.map prettyName := rfl

/-- The generic scorer's missing list, spelled out. -/
theorem analyzeGenericDocument_missing (d q dt : String) :
    (analyzeGenericDocument d q dt).missing_elements =
      (if genericRelevanceScore d q < 60 then
        ["Specific addressing of the question"] else []) := rfl

/-- No relevant dispatch target's missing list is the short-circuit
pair, for any actual type, document and question. -/
theorem dispatchReview_missing_ne_pair (a c q : String) :
    (dispatchReview a c q).missing_elements ≠
      ["Appropriate document type", "Content relevant to the question"] := by
  unfold dispatchReview
  split
  · rw [analyzeConsentForm_missing]
    exact mapped_missing_ne_pair _ _ (by decide)
  · split
    · rw [analyzeResearchProtocol_missing]
      exact mapped_missing_ne_pair _ _ (by decide)
    · split
      · rw [analyzeEthicsApplicationForm_missing]
        exact mapped_missing_ne_pair _ _ (by decide)
      · split
        · rw [analyzeCV_missing]
          exact mapped_missing_ne_pair _ _ (by decide)
        · split
          · rw [analyzeSurvey_missing]
            exact mapped_missing_ne_pair _ _ (by decide)
          · rw [analyzeGenericDocument_missing]
            split
            · exact (by decide)
            · exact (by decide)

/-- Claim C2: when the inferred expected type equals the inferred
actual type, the relevance gate passes, the review is the dispatched
per-type analysis, and in particular it is never the 20-score
short-circuit verdict. -/
theorem c2_matching_types_never_short_circuit
    (docContent question docName : String)
    (h : expectedDocumentType question = actualDocumentType docName docContent) :
    isDocumentRelevant (expectedDocumentType question)
      (actualDocumentType docName docContent) docContent question = true ∧
    generateDocumentReview docContent question docName =
      dispatchReview (actualDocumentType docName docContent) docContent question ∧
    ∀ e a, generateDocumentReview docContent question docName ≠
      irrelevantVerdict e a := by
  have hgate : isDocumentRelevant (expectedDocumentType question)
      (actualDocumentType docName docContent) docContent question = true := by
    rw [h]; exact isDocumentRelevant_of_eq _ _ _
  have hrev : generateDocumentReview docContent question docName =
      dispatchReview (actualDocumentType docName docContent) docContent question := by
    unfold generateDocumentReview
    dsimp only
    rw [hgate]
    rfl
  refine ⟨hgate, hrev, ?_⟩
  intro e a hEq
  have hmiss : (generateDocumentReview docContent question docName).missing_elements =
      ["Appropriate document type", "Content relevant to the question"] := by
    rw [hEq]
    rfl
  rw [hrev] at hmiss
  exact dispatchReview_missing_ne_pair _ _ _ hmiss

/-- Witness for claim C2 at a concrete matching input: the question
asks for a consent form and the file is named "consent.docx". -/
theorem c2_witness :
    expectedDocumentType "Please upload your consent form" =
      actualDocumentType "consent.docx" "sample text" ∧
    (isDocumentRelevant (expectedDocumentType "Please upload your consent form")
      (actualDocumentType "consent.docx" "sample text") "sample text"
      "Please upload your consent form" = true ∧
    generateDocumentReview "sample text" "Please upload your consent form"
      "consent.docx" =
      dispatchReview (actualDocumentType "consent.docx" "sample text")
        "sample text" "Please upload your consent form" ∧
    ∀ e a, generateDocumentReview "sample text" "Please upload your consent form"
      "consent.docx" ≠ irrelevantVerdict e a) :=
  ⟨by decide, c2_matching_types_never_short_circuit "sample text"
    "Please upload your consent form" "consent.docx" (by decide)⟩

/-- Claim C10: the expected-type inference never yields
"Study Protocol" (a question containing "study protocol" contains
"protocol" and is caught by the earlier Research Protocol rule), the
actual-type inference never yields it either, so the "Study Protocol"
dispatch disjunct is unreachable. -/
theorem c10_study_protocol_unreachable :
    (∀ question, expectedDocumentType question ≠ "Study Protocol") ∧
    (∀ docName docContent,
      actualDocumentType docName docContent ≠ "Study Protocol") := by
  constructor
  · intro q
    unfold expectedDocumentType
    dsimp only
    split
    · decide
    next h1 =>
      split
      · decide
      next h2 =>
        split
        · decide
        next h3 =>
          split
          · decide
          next h4 =>
            split
            · decide
            next h5 =>
              split
              next h6 =>
                exfalso
                apply h2
                rw [Bool.or_eq_true]
                exact Or.inl (strContains_protocol_of_study _ h6)
              next h7 => decide
  · intro n c
    unfold actualDocumentType
    dsimp only
    repeat' split
    all_goals decide

/-- Claim C3, counterexample: two documents that both fail the
relevance gate for the same question and name receive the same fixed
status and score 20, but different `analysis` texts — the analysis
names the inferred actual type, which depends on the document content
("protocol methodology" is typed as a Research Protocol,
"question answer" as a Survey/Questionnaire). -/
theorem c3_analysis_depends_on_content :
    (generateDocumentReview "protocol methodology"
      "Please upload your informed consent form" "notes").compliance_score = 20 ∧
    (generateDocumentReview "question answer"
      "Please upload your informed consent form" "notes").compliance_score = 20 ∧
    (generateDocumentReview "protocol methodology"
      "Please upload your informed consent form" "notes").analysis ≠
    (generateDocumentReview "question answer"
      "Please upload your informed consent form" "notes").analysis := by
  refine ⟨rfl, rfl, ?_⟩
  decide

/-- Claim C3 as amended: a review judged not relevant is the fixed
short-circuit verdict — status NEEDS_REVISION, score 20, the fixed
two-element missing list, and exactly two recommendations that depend
only on the question — but its `analysis` field names the inferred
actual document type and is therefore not independent of the
document's name and content. -/
theorem c3_short_circuit_verdict_fields
    (docContent docContent2 question docName : String)
    (h1 : isDocumentRelevant (expectedDocumentType question)
      (actualDocumentType docName docContent) docContent question = false)
    (h2 : isDocumentRelevant (expectedDocumentType question)
      (actualDocumentType docName docContent2) docContent2 question = false) :
    generateDocumentReview docContent question docName =
      irrelevantVerdict (expectedDocumentType question)
        (actualDocumentType docName docContent) ∧
    (generateDocumentReview docContent question docName).status =
      "NEEDS_REVISION" ∧
    (generateDocumentReview docContent question docName).compliance_score = 20 ∧
    (generateDocumentReview docContent question docName).missing_elements =
      ["Appropriate document type", "Content relevant to the question"] ∧
    (generateDocumentReview docContent question docName).recommendations =
      (generateDocumentReview docContent2 question docName).recommendations ∧
    (generateDocumentReview docContent question docName).recommendations.length = 2 := by
  have e1 : generateDocumentReview docContent question docName =
      irrelevantVerdict (expectedDocumentType question)
        (actualDocumentType docName docContent) := by
    unfold generateDocumentReview
    dsimp only
    rw [h1]
    rfl
  have e2 : generateDocumentReview docContent2 question docName =
      irrelevantVerdict (expectedDocumentType question)
        (actualDocumentType docName docContent2) := by
    unfold generateDocumentReview
    dsimp only
    rw [h2]
    rfl
  rw [e1, e2]
  exact ⟨rfl, rfl, rfl, rfl, rfl, rfl⟩

/-- Witness for the amended claim C3 at the counterexample inputs. -/
theorem c3_short_circuit_verdict_fields_witness :
    (isDocumentRelevant
      (expectedDocumentType "Please upload your informed consent form")
      (actualDocumentType "notes" "protocol methodology")
      "protocol methodology" "Please upload your informed consent form" = false) ∧
    (isDocumentRelevant
      (expectedDocumentType "Please upload your informed consent form")
      (actualDocumentType "notes" "question answer")
      "question answer" "Please upload your informed consent form" = false) ∧
    (generateDocumentReview "protocol methodology"
      "Please upload your informed consent form" "notes" =
      irrelevantVerdict
        (expectedDocumentType "Please upload your informed consent form")
        (actualDocumentType "notes" "protocol methodology") ∧
    (generateDocumentReview "protocol methodology"
      "Please upload your informed consent form" "notes").status =
      "NEEDS_REVISION" ∧
    (generateDocumentReview "protocol methodology"
      "Please upload your informed consent form" "notes").compliance_score = 20 ∧
    (generateDocumentReview "protocol methodology"
      "Please upload your informed consent form" "notes").missing_elements =
      ["Appropriate document type", "Content relevant to the question"] ∧
    (generateDocumentReview "protocol methodology"
      "Please upload your informed consent form" "notes").recommendations =
      (generateDocumentReview "question answer"
        "Please upload your informed consent form" "notes").recommendations ∧
    (generateDocumentReview "protocol methodology"
      "Please upload your informed consent form" "notes").recommendations.length = 2) :=
  ⟨by decide, by decide,
    c3_short_circuit_verdict_fields "protocol methodology" "question answer"
      "Please upload your informed consent form" "notes" (by decide) (by decide)⟩

/-- Claim C4, counterexample: a user message holding the
document-content marker but no ethics-question marker is handled by
the document-review path all the same — the engine returns the review
verdict computed from content "x", empty question and empty name. -/
theorem c4_preview_marker_suffices :
    strContains "Document Content Preview: x" "Ethics Question:" = false ∧
    getCompletion [{ role := "user", content := "Document Content Preview: x" }]
      "2024-01-01 10:00:00" (fun _ => none) =
      CompletionResult.verdict (generateDocumentReview "x" "" "") := by
  constructor
  · decide
  · rfl

/-- Claim C4 as amended: the classifier routes to the document-review
path whenever the user message contains the document-content marker,
whether or not an ethics-question marker is present (an absent marker
just yields an empty extracted question). -/
theorem c4_document_marker_routes_review
    (messages : List Message) (now : String)
    (jsonLoads : String → Option (List (String × Option ReviewFields)))
    (u : String)
    (hu : (lastUserSystem messages).1 = some u)
    (hne : ¬(u = ""))
    (hm : strContains u "Document Content Preview:" = true) :
    getCompletion messages now jsonLoads =
      CompletionResult.verdict (reviewFromMessage u) := by
  unfold getCompletion
  dsimp only
  rw [hu]
  dsimp only
  rw [if_neg hne, if_pos hm]

/-- Witness for the amended claim C4 at a concrete input. -/
theorem c4_document_marker_routes_review_witness :
    (lastUserSystem [{ role := "user", content := "Document Content Preview: x" }]).1 =
      some "Document Content Preview: x" ∧
    ¬("Document Content Preview: x" = "") ∧
    strContains "Document Content Preview: x" "Document Content Preview:" = true ∧
    getCompletion [{ role := "user", content := "Document Content Preview: x" }]
      "2024-02-02 08:30:00" (fun _ => none) =
      CompletionResult.verdict (reviewFromMessage "Document Content Preview: x") :=
  ⟨by decide, by decide, by decide,
    c4_document_marker_routes_review
      [{ role := "user", content := "Document Content Preview: x" }]
      "2024-02-02 08:30:00" (fun _ => none) "Document Content Preview: x"
      (by decide) (by decide) (by decide)⟩

set_option maxRecDepth 8000 in
/-- Claim C6, counterexample: two calls with the identical message list
(asking for a review report) at two different clock readings return
different outputs — the report's `generated_at` timestamp differs. -/
theorem c6_timestamp_counterexample :
    getCompletion [{ role := "user", content := "generate a review report" }]
      "2024-01-01 10:00:00" (fun _ => none) ≠
    getCompletion [{ role := "user", content := "generate a review report" }]
      "2024-01-01 10:00:05" (fun _ => none) := by
  decide

/-- Claim C6 as amended: the engine retains no internal state and is a
pure function of its input message list, the `json.loads` collaborator
and the clock reading; every path except report generation is
independent of the clock, while the report path embeds the call-time
clock reading as `generated_at` (leaving all other report fields
unchanged). -/
theorem c6_clock_only_in_report_timestamp
    (messages : List Message)
    (jsonLoads : String → Option (List (String × Option ReviewFields)))
    (t1 t2 : String) :
    getCompletion messages t1 jsonLoads = getCompletion messages t2 jsonLoads ∨
    (∃ reviews,
      getCompletion messages t1 jsonLoads =
        CompletionResult.report
          { status := "COMPLETED", report := buildReport reviews, generated_at := t1 } ∧
      getCompletion messages t2 jsonLoads =
        CompletionResult.report
          { status := "COMPLETED", report := buildReport reviews, generated_at := t2 }) := by
  unfold getCompletion
  dsimp only
  cases hlu : (lastUserSystem messages).1 with
  | none => exact Or.inl rfl
  | some u =>
    dsimp only
    by_cases h0 : u = ""
    · rw [if_pos h0, if_pos h0]
      exact Or.inl rfl
    · rw [if_neg h0, if_neg h0]
      by_cases hdoc : strContains u "Document Content Preview:" = true
      · rw [if_pos hdoc, if_pos hdoc]
        exact Or.inl rfl
      · rw [if_neg hdoc, if_neg hdoc]
        by_cases hctx : strContains (pyLower u) "research context" = true
        · rw [if_pos hctx, if_pos hctx]
          exact Or.inl rfl
        · rw [if_neg hctx, if_neg hctx]
          by_cases hqf : (strContains u "Question:" && strContains u "Response:") = true
          · rw [if_pos hqf, if_pos hqf]
            exact Or.inl rfl
          · rw [if_neg hqf, if_neg hqf]
            by_cases hrep :
              (match (lastUserSystem messages).2 with
               | some s =>
                 if s ≠ "" then strContains (pyLower s) "review report"
                 else strContains (pyLower u) "generate a review report"
               | none => strContains (pyLower u) "generate a review report") = true
            · rw [if_pos hrep, if_pos hrep]
              exact Or.inr ⟨extractReviews u jsonLoads, rfl, rfl⟩
            · rw [if_neg hrep, if_neg hrep]
              exact Or.inl rfl

set_option maxRecDepth 8000 in
/-- Claim C7: with a system message present that lacks the
"review report" marker, a user message reading "generate a review
report" falls through to the generic fallback instead of the
report-generation path — the user-text check is short-circuited away
by the conditional-expression precedence; without a system message the
same user message does reach the report path. -/
theorem c7_user_marker_dead_when_system_present
    (now : String)
    (jsonLoads : String → Option (List (String × Option ReviewFields))) :
    getCompletion
      [{ role := "system", content := "You are a helpful assistant." },
       { role := "user", content := "generate a review report" }]
      now jsonLoads = CompletionResult.text defaultResponse ∧
    getCompletion [{ role := "user", content := "generate a review report" }]
      now jsonLoads =
      CompletionResult.report
        { status := "COMPLETED", report := buildReport [], generated_at := now } := by
  constructor
  · rfl
  · rfl

set_option maxRecDepth 8000 in
/-- Claim C8: the report composed from an empty reviews map contains
the placeholder sentence "No document reviews are available. ..." and
no per-document subsection header, and its status is COMPLETED. -/
theorem c8_empty_reviews_placeholder (now : String) :
    (generateReviewReport [] now).status = "COMPLETED" ∧
    strContains (generateReviewReport [] now).report
      "No document reviews are available" = true ∧
    strContains (generateReviewReport [] now).report "### Document ID:" = false := by
  refine ⟨rfl, ?_, ?_⟩
  · show strContains (buildReport []) "No document reviews are available" = true
    decide
  · show strContains (buildReport []) "### Document ID:" = false
    decide

/-- The scan of the messages yields no user content when no message
has the user role. -/
theorem foldl_updateLast_fst (msgs : List Message) :
    ∀ acc : Option String × Option String,
      (∀ m ∈ msgs, m.role ≠ "user") →
      (msgs.foldl updateLast acc).1 = acc.1 := by
  induction msgs with
  | nil => intro acc _; rfl
  | cons m rest ih =>
    intro acc h
    rw [List.foldl_cons]
    have h1 : (updateLast acc m).1 = acc.1 := by
      unfold updateLast
      rw [if_neg (h m (List.mem_cons_self m rest))]
      split <;> rfl
    rw [ih (updateLast acc m) (fun x hx => h x (List.mem_cons_of_mem m hx)), h1]

/-- Claim C9: when the message list holds no user-role message, the
engine returns the structured ERROR object with its descriptive
message (and, being a total function, raises nothing). -/
theorem c9_no_user_message_returns_error
    (messages : List Message) (now : String)
    (jsonLoads : String → Option (List (String × Option ReviewFields)))
    (h : ∀ m ∈ messages, m.role ≠ "user") :
    getCompletion messages now jsonLoads =
      CompletionResult.errorMsg "No user message found in the conversation." := by
  have hlu : (lastUserSystem messages).1 = none :=
    foldl_updateLast_fst messages (none, none) h
  unfold getCompletion
  dsimp only
  rw [hlu]

/-- Witness for claim C9 on a system-only message list. -/
theorem c9_no_user_message_returns_error_witness :
    (∀ m ∈ [({ role := "system", content := "You are an assistant." } : Message)],
      m.role ≠ "user") ∧
    getCompletion [{ role := "system", content := "You are an assistant." }]
      "2024-03-03 12:00:00" (fun _ => none) =
      CompletionResult.errorMsg "No user message found in the conversation." :=
  ⟨by decide,
    c9_no_user_message_returns_error
      [{ role := "system", content := "You are an assistant." }]
      "2024-03-03 12:00:00" (fun _ => none) (by decide)⟩

end EthicsPoC
